import Mathlib

/-!
Verification of the model-resolution factory in `anomalib/models/__init__.py`.

The module under study exposes two functions:
  * `_snake_to_pascal_case(model_name)` — a pure string transform;
  * `get_model(config)` — resolution of a model identifier against a fixed
    ten-name registry, dynamic import of the implementation module, retrieval
    of the `<PascalCase>Lightning` class attribute, construction of the model
    from the full configuration, and an optional non-strict load of saved
    weights from disk.

The shallow embedding below renders the configuration document, the import
machinery, the filesystem and the serialized-weights artifact as explicit
data, and `get_model` as a total function into `Except`.  Python exceptions
become explicit error values; the spec's error taxonomy (UnsupportedModelError,
ResolutionError, WeightLoadError) maps onto them by the predicates further
down.  Strings are Lean strings with ASCII case mapping, which covers the
identifier alphabet the registry uses.
-/

set_option autoImplicit false

namespace AnomalibModels

/-- Embedding of Python `str.split("_")`: cut the character sequence at every
underscore, keeping empty segments, so that the result always has one more
segment than there are underscores. -/
def splitOnUnderscore : List Char → List (List Char)
  | [] => [[]]
  | c :: cs =>
    if c = '_' then [] :: splitOnUnderscore cs
    else
      match splitOnUnderscore cs with
      | [] => [[c]]
      | seg :: rest => (c :: seg) :: rest

/-- Embedding of Python `str.capitalize()` over ASCII: uppercase the first
character, lowercase the rest. -/
def pyCapitalize (s : String) : String :=
  match s.data with
  | [] => ""
  | c :: cs => String.mk (c.toUpper :: cs.map Char.toLower)

/-- Embedding of `_snake_to_pascal_case` from the source:
`"".join([split.capitalize() for split in model_name.split("_")])`. -/
def snake_to_pascal_case (model_name : String) : String :=
  String.join ((splitOnUnderscore model_name.data).map
    (fun cs => pyCapitalize (String.mk cs)))

/-- The transform the spec describes, written from its words: split the string
on underscores, uppercase the first character of each segment and lowercase
the rest, and concatenate the segments with no separator. -/
def spec_pascal_case (s : String) : String :=
  String.join ((splitOnUnderscore s.data).map (fun seg =>
    String.mk
      (match seg with
       | [] => []
       | c :: cs => c.toUpper :: cs.map Char.toLower)))

/-- The fixed registry hardcoded inside `get_model` (`model_list`). -/
def model_list : List String :=
  ["cflow", "dfkde", "dfm", "draem", "fastflow", "ganomaly", "padim",
   "patchcore", "reverse_distillation", "stfpm"]

/-- A Python value as it can appear under the `init_weights` configuration
key: `None`, a boolean, or a string (the relative weights path). -/
inductive PyValue where
  | vNone : PyValue
  | vBool (b : Bool) : PyValue
  | vStr (s : String) : PyValue
  deriving Repr, DecidableEq

/-- Python truthiness of such a value: `None` and `False` are falsy, a string
is truthy iff non-empty. -/
def PyValue.truthy : PyValue → Bool
  | .vNone => false
  | .vBool b => b
  | .vStr s => s ≠ ""

/-- The slice of the OmegaConf configuration document that `get_model` reads:
`config.model.name` (required), the optional top-level `init_weights` entry
(`none` means the key is absent, mirroring the `"init_weights" in
config.keys()` test), and the optional `config.project.path` field (`none`
means the `project` section or its `path` field is absent). -/
structure Config where
  model_name : String
  init_weights : Option PyValue
  project_path : Option String
  deriving Repr, DecidableEq

/-- A state dict: a finite mapping from parameter names to their values,
rendered as an association list.  Parameter values are abstracted to `Int`;
nothing below depends on their type. -/
abbrev StateDict := List (String × Int)

/-- First-match association-list lookup, the mapping semantics shared by the
state dict, the serialized artifact, the filesystem and the module table. -/
def alookup {α : Type} : List (String × α) → String → Option α
  | [], _ => none
  | (k, v) :: rest, key => if k = key then some v else alookup rest key

/-- Modelled from the spec: `torch.nn.Module.load_state_dict(sd, strict=False)`
(external to the excerpt).  Per the spec's glossary, a non-strict load applies
only the overlapping keys between the incoming mapping and the model's current
parameters: a parameter whose key occurs in `incoming` takes the incoming
value, every other parameter keeps its value, and incoming keys that match no
parameter are ignored. -/
def load_state_dict_nonstrict (params incoming : StateDict) : StateDict :=
  params.map (fun p =>
    match alookup incoming p.1 with
    | some v => (p.1, v)
    | none => p)

/-- Modelled from the spec: the on-disk saved-parameters artifact, "a
serialized document whose top level contains a key `state_dict` mapping
parameter names to tensors/arrays". -/
structure Artifact where
  top : List (String × StateDict)
  deriving Repr, DecidableEq

/-- The filesystem seen by `torch.load`: a finite map from paths to the
artifacts deserialized from them; a path bound to nothing raises the
file-not-found / deserialization failure. -/
abbrev FS := List (String × Artifact)

/-- Embedding of `posixpath.join` on two components, as used in
`os.path.join(config.project.path, config.init_weights)`: an absolute second
component replaces the first, otherwise the components are joined with a
separator unless one is already present. -/
def os_path_join (a b : String) : String :=
  if b.data.head? = some '/' then b
  else if a = "" || a.data.getLast? = some '/' then a ++ b
  else a ++ "/" ++ b

/-- A Python module as `get_model` uses it: its attribute table, each
attribute a Lightning class, i.e. a constructor taking the full configuration
to the freshly constructed model's parameters. -/
structure PyModule where
  attrs : List (String × (Config → StateDict))

/-- The import system as `import_module` sees it: a table from dotted module
names to modules.  A name bound to nothing raises ModuleNotFoundError. -/
structure ModuleEnv where
  modules : List (String × PyModule)

/-- The resolved model instance: which module and class produced it, its
current parameters, and the configuration document passed to its
constructor. -/
structure ModelInstance where
  moduleName : String
  className : String
  params : StateDict
  cfg : Config
  deriving Repr, DecidableEq

/-- The exceptions `get_model` can raise, one constructor per raise site:
`ValueError(f"Unknown model {name}!")`, ModuleNotFoundError from
`import_module`, AttributeError from `getattr`, the file-not-found /
deserialization failure of `torch.load`, the KeyError on a missing
`state_dict` top-level key, the attribute error on a missing
`config.project.path`, and the TypeError of `os.path.join` on a non-string
second argument. -/
inductive GetModelError where
  | unknownModel (name : String) : GetModelError
  | moduleNotFound (moduleName : String) : GetModelError
  | attributeNotFound (attrName : String) : GetModelError
  | fileNotFound (path : String) : GetModelError
  | missingStateDictKey (path : String) : GetModelError
  | missingProjectPath : GetModelError
  | joinTypeError : GetModelError
  deriving Repr, DecidableEq

/-- The spec's UnsupportedModelError: the `ValueError` naming an identifier
outside the registry. -/
def GetModelError.isUnsupportedModelError : GetModelError → Bool
  | .unknownModel _ => true
  | _ => false

/-- The spec's ResolutionError: module-not-found or attribute-not-found while
following the naming convention. -/
def GetModelError.isResolutionError : GetModelError → Bool
  | .moduleNotFound _ => true
  | .attributeNotFound _ => true
  | _ => false

/-- The spec's WeightLoadError: the artifact path is missing or the artifact
is malformed (no `state_dict` key). -/
def GetModelError.isWeightLoadError : GetModelError → Bool
  | .fileNotFound _ => true
  | .missingStateDictKey _ => true
  | _ => false

/-- Embedding of `get_model(config)`.  In source order: membership of
`config.model.name` in `model_list`; `import_module(f"anomalib.models.
{config.model.name}")`; `getattr(module, f"{_snake_to_pascal_case(...)}
Lightning")(config)`; then, when `"init_weights" in config.keys() and
config.init_weights`, `model.load_state_dict(load(os.path.join(
config.project.path, config.init_weights))["state_dict"], strict=False)`. -/
def get_model (env : ModuleEnv) (fs : FS) (config : Config) :
    Except GetModelError ModelInstance :=
  if config.model_name ∈ model_list then
    let moduleName := "anomalib.models." ++ config.model_name
    match alookup env.modules moduleName with
    | none => .error (.moduleNotFound moduleName)
    | some pymod =>
      let attrName := snake_to_pascal_case config.model_name ++ "Lightning"
      match alookup pymod.attrs attrName with
      | none => .error (.attributeNotFound attrName)
      | some cls =>
        let model : ModelInstance :=
          { moduleName := moduleName, className := attrName,
            params := cls config, cfg := config }
        match config.init_weights with
        | none => .ok model
        | some w =>
          if w.truthy then
            match config.project_path with
            | none => .error .missingProjectPath
            | some pp =>
              match w with
              | .vStr ws =>
                let path := os_path_join pp ws
                match alookup fs path with
                | none => .error (.fileNotFound path)
                | some art =>
                  match alookup art.top "state_dict" with
                  | none => .error (.missingStateDictKey path)
                  | some sd =>
                    .ok { model with
                          params := load_state_dict_nonstrict model.params sd }
              | _ => .error .joinTypeError
          else .ok model
  else .error (.unknownModel config.model_name)

/-- Modelled from the spec: the repository's module layout, which is outside
the excerpt.  Per the naming convention ("the module is expected to live at
`models/<identifier>` and to export a class named `<PascalCaseIdentifier>
Lightning`"), every registry identifier has a module `anomalib.models.
<identifier>` exporting exactly that class; the per-class constructors are
abstracted as the parameter `inits`. -/
def conventionEnv (inits : String → Config → StateDict) : ModuleEnv :=
  { modules := model_list.map (fun name =>
      ("anomalib.models." ++ name,
        { attrs := [(snake_to_pascal_case name ++ "Lightning", inits name)] })) }

/-- True exactly on successful resolutions. -/
def isOkResult : Except GetModelError ModelInstance → Bool
  | .ok _ => true
  | .error _ => false

/-- True exactly when resolution failed with the spec's WeightLoadError; in
particular false on every successful resolution. -/
def isWeightLoadFailure : Except GetModelError ModelInstance → Bool
  | .error e => e.isWeightLoadError
  | .ok _ => false

/-- True exactly when resolution failed with the spec's ResolutionError. -/
def isResolutionFailure : Except GetModelError ModelInstance → Bool
  | .error e => e.isResolutionError
  | .ok _ => false

/-- The resolution outcome stripped of constructor-dependent data: on success
the (module, class) pair that resolution chose, on failure the error. -/
def resolutionOutcome :
    Except GetModelError ModelInstance → Except GetModelError (String × String)
  | .ok m => .ok (m.moduleName, m.className)
  | .error e => .error e

/-- The configuration recorded in a returned instance, if any. -/
def cfgOf : Except GetModelError ModelInstance → Option Config
  | .ok m => some m.cfg
  | .error _ => none

/-! Helper lemmas. -/

/-- Membership in the registry is membership in the explicit ten-name list. -/
theorem mem_model_list_cases {name : String} (h : name ∈ model_list) :
    name = "cflow" ∨ name = "dfkde" ∨ name = "dfm" ∨ name = "draem" ∨
    name = "fastflow" ∨ name = "ganomaly" ∨ name = "padim" ∨
    name = "patchcore" ∨ name = "reverse_distillation" ∨ name = "stfpm" := by
  simpa [model_list] using h

/-- A key the incoming state dict binds overwrites the matching parameter
under a non-strict load. -/
theorem alookup_load_present (params incoming : StateDict) (k : String) (v : Int)
    (hin : alookup incoming k = some v) (hp : (alookup params k).isSome = true) :
    alookup (load_state_dict_nonstrict params incoming) k = some v := by
  induction params with
  | nil => simp [alookup] at hp
  | cons p rest ih =>
    obtain ⟨k₁, v₁⟩ := p
    by_cases hk : k₁ = k
    · subst hk
      simp [load_state_dict_nonstrict, alookup, hin]
    · have hp' : (alookup rest k).isSome = true := by
        simpa [alookup, hk] using hp
      have hstep : load_state_dict_nonstrict ((k₁, v₁) :: rest) incoming =
          (match alookup incoming k₁ with
           | some v => (k₁, v)
           | none => (k₁, v₁)) :: load_state_dict_nonstrict rest incoming := rfl
      rw [hstep]
      cases hmatch : alookup incoming k₁ <;> simp [alookup, hk] <;> exact ih hp'

/-- A key the incoming state dict does not bind leaves the matching parameter
untouched under a non-strict load. -/
theorem alookup_load_absent (params incoming : StateDict) (k : String)
    (hin : alookup incoming k = none) :
    alookup (load_state_dict_nonstrict params incoming) k = alookup params k := by
  induction params with
  | nil => rfl
  | cons p rest ih =>
    obtain ⟨k₁, v₁⟩ := p
    by_cases hk : k₁ = k
    · subst hk
      simp [load_state_dict_nonstrict, alookup, hin]
    · have hstep : load_state_dict_nonstrict ((k₁, v₁) :: rest) incoming =
          (match alookup incoming k₁ with
           | some v => (k₁, v)
           | none => (k₁, v₁)) :: load_state_dict_nonstrict rest incoming := rfl
      rw [hstep]
      cases hmatch : alookup incoming k₁ <;> simp [alookup, hk] <;> exact ih

/-! Claim theorems. -/

/-- Claim C1: for every identifier in the fixed ten-name registry, under the
convention-following module layout, resolution succeeds and returns the
instance built by the class named PascalCase(identifier) ++ "Lightning" of
module anomalib.models.<identifier>, constructed from the full
configuration. -/
theorem C1_registry_resolves (name : String)
    (inits : String → Config → StateDict) (fs : FS) (hreg : name ∈ model_list) :
    get_model (conventionEnv inits) fs ⟨name, none, none⟩ =
      .ok { moduleName := "anomalib.models." ++ name,
            className := snake_to_pascal_case name ++ "Lightning",
            params := inits name ⟨name, none, none⟩,
            cfg := ⟨name, none, none⟩ } := by
  rcases mem_model_list_cases hreg with
    rfl | rfl | rfl | rfl | rfl | rfl | rfl | rfl | rfl | rfl <;> rfl

/-- Witness for C1 at the identifier "padim". -/
theorem C1_registry_resolves_witness :
    get_model (conventionEnv (fun _ _ => [("w", 0)])) [] ⟨"padim", none, none⟩ =
      .ok { moduleName := "anomalib.models.padim",
            className := "PadimLightning",
            params := [("w", 0)],
            cfg := ⟨"padim", none, none⟩ } :=
  C1_registry_resolves "padim" (fun _ _ => [("w", 0)]) [] (by decide)

/-- Claim C2: for any model name outside the registry, resolution fails with
the ValueError naming the offending identifier (the spec's
UnsupportedModelError), and with no other outcome. -/
theorem C2_unknown_model_error (env : ModuleEnv) (fs : FS) (config : Config)
    (h : config.model_name ∉ model_list) :
    get_model env fs config = .error (.unknownModel config.model_name) := by
  simp [get_model, h]

/-- Witness for C2 at the identifier "not_a_model". -/
theorem C2_unknown_model_error_witness :
    get_model ⟨[]⟩ [] ⟨"not_a_model", none, none⟩ =
      .error (.unknownModel "not_a_model") :=
  C2_unknown_model_error ⟨[]⟩ [] ⟨"not_a_model", none, none⟩ (by decide)

/-- Claim C3: the snake-to-Pascal conversion splits on underscores,
uppercases each segment's first character, lowercases the rest, and
concatenates with no separator; in particular "reverse_distillation" maps to
"ReverseDistillation", "stfpm" to "Stfpm" and "dfkde" to "Dfkde". -/
theorem C3_snake_to_pascal_spec :
    (∀ s : String, snake_to_pascal_case s = spec_pascal_case s) ∧
    snake_to_pascal_case "reverse_distillation" = "ReverseDistillation" ∧
    snake_to_pascal_case "stfpm" = "Stfpm" ∧
    snake_to_pascal_case "dfkde" = "Dfkde" := by
  refine ⟨fun s => ?_, by decide, by decide, by decide⟩
  have h : (fun cs : List Char => pyCapitalize (String.mk cs)) =
      (fun seg : List Char => String.mk
        (match seg with
         | [] => []
         | c :: cs => c.toUpper :: cs.map Char.toLower)) :=
    funext fun cs => by cases cs <;> rfl
  simp only [snake_to_pascal_case, spec_pascal_case, h]

/-- Claim C4: with the weights flag set to a non-empty path string, resolution
joins the project path with the relative path, reads the artifact there, takes
its state_dict entry and applies it to the fresh model non-strictly: every
artifact key that names a parameter takes the artifact's value, every
parameter absent from the artifact keeps its constructor-given value. -/
theorem C4_nonstrict_weight_load (env : ModuleEnv) (fs : FS) (config : Config)
    (pymod : PyModule) (cls : Config → StateDict) (pp ws : String)
    (art : Artifact) (sd : StateDict)
    (hreg : config.model_name ∈ model_list)
    (hmod : alookup env.modules
      ("anomalib.models." ++ config.model_name) = some pymod)
    (hcls : alookup pymod.attrs
      (snake_to_pascal_case config.model_name ++ "Lightning") = some cls)
    (hiw : config.init_weights = some (.vStr ws)) (hws : ws ≠ "")
    (hpp : config.project_path = some pp)
    (hart : alookup fs (os_path_join pp ws) = some art)
    (hsd : alookup art.top "state_dict" = some sd) :
    get_model env fs config =
      .ok { moduleName := "anomalib.models." ++ config.model_name,
            className := snake_to_pascal_case config.model_name ++ "Lightning",
            params := load_state_dict_nonstrict (cls config) sd,
            cfg := config } ∧
    (∀ k v, alookup sd k = some v → (alookup (cls config) k).isSome = true →
      alookup (load_state_dict_nonstrict (cls config) sd) k = some v) ∧
    (∀ k, alookup sd k = none →
      alookup (load_state_dict_nonstrict (cls config) sd) k =
        alookup (cls config) k) := by
  refine ⟨?_, fun k v hv hp => alookup_load_present _ _ _ _ hv hp,
    fun k hk => alookup_load_absent _ _ _ hk⟩
  simp [get_model, hreg, hmod, hcls, hiw, hpp, hart, hsd, PyValue.truthy, hws]

/-- Witness for C4: a padim model with parameters a ↦ 1, b ↦ 2 loading an
artifact binding a ↦ 10 and c ↦ 30 ends with a ↦ 10 (overwritten), b ↦ 2
(retained), and c ignored. -/
theorem C4_nonstrict_weight_load_witness :
    get_model
      ⟨[("anomalib.models.padim",
         ⟨[("PadimLightning", fun _ => [("a", 1), ("b", 2)])]⟩)]⟩
      [("proj/weights.ckpt", ⟨[("state_dict", [("a", 10), ("c", 30)])]⟩)]
      ⟨"padim", some (.vStr "weights.ckpt"), some "proj"⟩ =
      .ok { moduleName := "anomalib.models.padim",
            className := "PadimLightning",
            params := [("a", 10), ("b", 2)],
            cfg := ⟨"padim", some (.vStr "weights.ckpt"), some "proj"⟩ } :=
  (C4_nonstrict_weight_load
    ⟨[("anomalib.models.padim",
       ⟨[("PadimLightning", fun _ => [("a", 1), ("b", 2)])]⟩)]⟩
    [("proj/weights.ckpt", ⟨[("state_dict", [("a", 10), ("c", 30)])]⟩)]
    ⟨"padim", some (.vStr "weights.ckpt"), some "proj"⟩
    ⟨[("PadimLightning", fun _ => [("a", 1), ("b", 2)])]⟩
    (fun _ => [("a", 1), ("b", 2)]) "proj" "weights.ckpt"
    ⟨[("state_dict", [("a", 10), ("c", 30)])]⟩ [("a", 10), ("c", 30)]
    (by decide) rfl rfl rfl (by decide) rfl (by decide) (by decide)).1

/-- Claim C5: with the weights flag set to a non-empty path string but the
artifact path unbound in the filesystem, or the artifact lacking the
state_dict key, resolution ends in the spec's WeightLoadError and returns no
instance, partially loaded or otherwise. -/
theorem C5_weight_load_failure (env : ModuleEnv) (fs : FS) (config : Config)
    (pymod : PyModule) (cls : Config → StateDict) (pp ws : String)
    (hreg : config.model_name ∈ model_list)
    (hmod : alookup env.modules
      ("anomalib.models." ++ config.model_name) = some pymod)
    (hcls : alookup pymod.attrs
      (snake_to_pascal_case config.model_name ++ "Lightning") = some cls)
    (hiw : config.init_weights = some (.vStr ws)) (hws : ws ≠ "")
    (hpp : config.project_path = some pp)
    (hbad : alookup fs (os_path_join pp ws) = none ∨
      ∃ art, alookup fs (os_path_join pp ws) = some art ∧
        alookup art.top "state_dict" = none) :
    isWeightLoadFailure (get_model env fs config) = true := by
  rcases hbad with hnone | ⟨art, hart, hsd⟩ <;>
    simp [get_model, hreg, hmod, hcls, hiw, hpp, PyValue.truthy, hws,
      isWeightLoadFailure, GetModelError.isWeightLoadError, *]

/-- Witness for C5: weight loading requested against an empty filesystem. -/
theorem C5_weight_load_failure_witness :
    isWeightLoadFailure (get_model
      ⟨[("anomalib.models.padim",
         ⟨[("PadimLightning", fun _ => [("a", 1), ("b", 2)])]⟩)]⟩
      []
      ⟨"padim", some (.vStr "weights.ckpt"), some "proj"⟩) = true :=
  C5_weight_load_failure
    ⟨[("anomalib.models.padim",
       ⟨[("PadimLightning", fun _ => [("a", 1), ("b", 2)])]⟩)]⟩
    []
    ⟨"padim", some (.vStr "weights.ckpt"), some "proj"⟩
    ⟨[("PadimLightning", fun _ => [("a", 1), ("b", 2)])]⟩
    (fun _ => [("a", 1), ("b", 2)]) "proj" "weights.ckpt"
    (by decide) rfl rfl rfl (by decide) rfl (Or.inl rfl)

/-- Claim C6: with the weights flag absent or falsy, resolution never consults
the filesystem — its outcome is the same under every filesystem. -/
theorem C6_no_read_when_not_requested (env : ModuleEnv) (config : Config)
    (fs₁ fs₂ : FS)
    (h : config.init_weights = none ∨
      ∃ v, config.init_weights = some v ∧ v.truthy = false) :
    get_model env fs₁ config = get_model env fs₂ config := by
  rcases h with h | ⟨v, hv, ht⟩ <;> simp [get_model, *]

/-- Witness for C6: with init_weights set to False, the empty filesystem and
one holding an artifact give the same resolution. -/
theorem C6_no_read_when_not_requested_witness :
    get_model
      ⟨[("anomalib.models.padim",
         ⟨[("PadimLightning", fun _ => [("a", 1), ("b", 2)])]⟩)]⟩
      []
      ⟨"padim", some (.vBool false), some "proj"⟩ =
    get_model
      ⟨[("anomalib.models.padim",
         ⟨[("PadimLightning", fun _ => [("a", 1), ("b", 2)])]⟩)]⟩
      [("proj/weights.ckpt", ⟨[("state_dict", [("a", 10)])]⟩)]
      ⟨"padim", some (.vBool false), some "proj"⟩ :=
  C6_no_read_when_not_requested
    ⟨[("anomalib.models.padim",
       ⟨[("PadimLightning", fun _ => [("a", 1), ("b", 2)])]⟩)]⟩
    ⟨"padim", some (.vBool false), some "proj"⟩
    []
    [("proj/weights.ckpt", ⟨[("state_dict", [("a", 10)])]⟩)]
    (Or.inr ⟨.vBool false, rfl, rfl⟩)

/-- Claim C7: a registry identifier whose module is missing, or whose module
lacks the conventionally named Lightning class, makes resolution fail with the
spec's ResolutionError. -/
theorem C7_convention_violation (env : ModuleEnv) (fs : FS) (config : Config)
    (hreg : config.model_name ∈ model_list)
    (hbad : alookup env.modules
        ("anomalib.models." ++ config.model_name) = none ∨
      ∃ pymod, alookup env.modules
          ("anomalib.models." ++ config.model_name) = some pymod ∧
        alookup pymod.attrs
          (snake_to_pascal_case config.model_name ++ "Lightning") = none) :
    isResolutionFailure (get_model env fs config) = true := by
  rcases hbad with hnone | ⟨pymod, hmod, hattr⟩ <;>
    simp [get_model, hreg, isResolutionFailure,
      GetModelError.isResolutionError, *]

/-- Witness for C7: the registry name "padim" against an empty module
table. -/
theorem C7_convention_violation_witness :
    isResolutionFailure (get_model ⟨[]⟩ [] ⟨"padim", none, none⟩) = true :=
  C7_convention_violation ⟨[]⟩ [] ⟨"padim", none, none⟩ (by decide) (Or.inl rfl)

/-- Claim C8: resolution is deterministic — equal configurations against the
same module table and filesystem give equal outcomes — and any instance it
returns is the one freshly constructed from this very call's configuration. -/
theorem C8_deterministic_resolution (env : ModuleEnv) (fs : FS)
    (c₁ c₂ : Config) (h : c₁ = c₂) :
    get_model env fs c₁ = get_model env fs c₂ ∧
    (cfgOf (get_model env fs c₁) = some c₁ ∨
      cfgOf (get_model env fs c₁) = none) := by
  subst h
  refine ⟨rfl, ?_⟩
  by_cases hm : c₁.model_name ∈ model_list
  · rcases hmod : alookup env.modules
        ("anomalib.models." ++ c₁.model_name) with _ | pymod
    · simp [get_model, cfgOf, hm, hmod]
    · rcases hcls : alookup pymod.attrs
          (snake_to_pascal_case c₁.model_name ++ "Lightning") with _ | cls
      · simp [get_model, cfgOf, hm, hmod, hcls]
      · rcases hiw : c₁.init_weights with _ | w
        · simp [get_model, cfgOf, hm, hmod, hcls, hiw]
        · cases w with
          | vNone => simp [get_model, cfgOf, hm, hmod, hcls, hiw, PyValue.truthy]
          | vBool b =>
            cases b with
            | false =>
              simp [get_model, cfgOf, hm, hmod, hcls, hiw, PyValue.truthy]
            | true =>
              rcases hpp : c₁.project_path with _ | pp <;>
                simp [get_model, cfgOf, hm, hmod, hcls, hiw, hpp, PyValue.truthy]
          | vStr ws =>
            by_cases hws : ws = ""
            · simp [get_model, cfgOf, hm, hmod, hcls, hiw, hws, PyValue.truthy]
            · rcases hpp : c₁.project_path with _ | pp
              · simp [get_model, cfgOf, hm, hmod, hcls, hiw, hpp, hws,
                  PyValue.truthy]
              · rcases hart : alookup fs (os_path_join pp ws) with _ | art
                · simp [get_model, cfgOf, hm, hmod, hcls, hiw, hpp, hart, hws,
                    PyValue.truthy]
                · rcases hsd : alookup art.top "state_dict" with _ | sd <;>
                    simp [get_model, cfgOf, hm, hmod, hcls, hiw, hpp, hart,
                      hsd, hws, PyValue.truthy]
  · simp [get_model, cfgOf, hm]

/-- Witness for C8 at a concrete configuration. -/
theorem C8_deterministic_resolution_witness :
    get_model
      ⟨[("anomalib.models.padim",
         ⟨[("PadimLightning", fun _ => [("a", 1), ("b", 2)])]⟩)]⟩
      [] ⟨"padim", none, none⟩ =
    get_model
      ⟨[("anomalib.models.padim",
         ⟨[("PadimLightning", fun _ => [("a", 1), ("b", 2)])]⟩)]⟩
      [] ⟨"padim", none, none⟩ ∧
    (cfgOf (get_model
      ⟨[("anomalib.models.padim",
         ⟨[("PadimLightning", fun _ => [("a", 1), ("b", 2)])]⟩)]⟩
      [] ⟨"padim", none, none⟩) = some ⟨"padim", none, none⟩ ∨
     cfgOf (get_model
      ⟨[("anomalib.models.padim",
         ⟨[("PadimLightning", fun _ => [("a", 1), ("b", 2)])]⟩)]⟩
      [] ⟨"padim", none, none⟩) = none) :=
  C8_deterministic_resolution
    ⟨[("anomalib.models.padim",
       ⟨[("PadimLightning", fun _ => [("a", 1), ("b", 2)])]⟩)]⟩
    [] ⟨"padim", none, none⟩ ⟨"padim", none, none⟩ rfl

/-- Claim C9: the weights flag and the weights path are the single field
init_weights, and its truthiness alone gates loading: a present but falsy
value (False, empty string, or None) causes no load, the model coming back
exactly as constructed even when an artifact exists at the joined path. -/
theorem C9_falsy_flag_no_load (env : ModuleEnv) (fs : FS) (config : Config)
    (v : PyValue) (pymod : PyModule) (cls : Config → StateDict)
    (hreg : config.model_name ∈ model_list)
    (hmod : alookup env.modules
      ("anomalib.models." ++ config.model_name) = some pymod)
    (hcls : alookup pymod.attrs
      (snake_to_pascal_case config.model_name ++ "Lightning") = some cls)
    (hiw : config.init_weights = some v) (ht : v.truthy = false) :
    get_model env fs config =
      .ok { moduleName := "anomalib.models." ++ config.model_name,
            className := snake_to_pascal_case config.model_name ++ "Lightning",
            params := cls config,
            cfg := config } := by
  simp [get_model, hreg, hmod, hcls, hiw, ht]

/-- Witness for C9: init_weights present as the empty string, an artifact
sitting at the joined path, and the model still returned with its
constructor-given parameters. -/
theorem C9_falsy_flag_no_load_witness :
    get_model
      ⟨[("anomalib.models.padim",
         ⟨[("PadimLightning", fun _ => [("a", 1), ("b", 2)])]⟩)]⟩
      [("proj/", ⟨[("state_dict", [("a", 10)])]⟩)]
      ⟨"padim", some (.vStr ""), some "proj"⟩ =
      .ok { moduleName := "anomalib.models.padim",
            className := "PadimLightning",
            params := [("a", 1), ("b", 2)],
            cfg := ⟨"padim", some (.vStr ""), some "proj"⟩ } :=
  C9_falsy_flag_no_load
    ⟨[("anomalib.models.padim",
       ⟨[("PadimLightning", fun _ => [("a", 1), ("b", 2)])]⟩)]⟩
    [("proj/", ⟨[("state_dict", [("a", 10)])]⟩)]
    ⟨"padim", some (.vStr ""), some "proj"⟩
    (.vStr "")
    ⟨[("PadimLightning", fun _ => [("a", 1), ("b", 2)])]⟩
    (fun _ => [("a", 1), ("b", 2)])
    (by decide) rfl rfl rfl (by decide)

/-- Claim C10: with no init_weights key, project.path is never consulted — the
resolution outcome is the same whatever that field holds — and a registry name
with neither project section nor init_weights key resolves successfully under
the convention-following layout. -/
theorem C10_project_path_not_read (env : ModuleEnv) (fs : FS) (n : String)
    (p₁ p₂ : Option String) (inits : String → Config → StateDict)
    (hreg : n ∈ model_list) :
    resolutionOutcome (get_model env fs ⟨n, none, p₁⟩) =
      resolutionOutcome (get_model env fs ⟨n, none, p₂⟩) ∧
    isOkResult (get_model (conventionEnv inits) fs ⟨n, none, none⟩) = true := by
  constructor
  · rcases hmod : alookup env.modules ("anomalib.models." ++ n) with _ | pymod
    · simp [get_model, resolutionOutcome, hreg, hmod]
    · rcases hcls : alookup pymod.attrs
          (snake_to_pascal_case n ++ "Lightning") with _ | cls <;>
        simp [get_model, resolutionOutcome, hreg, hmod, hcls]
  · rcases mem_model_list_cases hreg with
      rfl | rfl | rfl | rfl | rfl | rfl | rfl | rfl | rfl | rfl <;> rfl

/-- Witness for C10 at "padim" with the project path absent versus set. -/
theorem C10_project_path_not_read_witness :
    resolutionOutcome (get_model
      ⟨[("anomalib.models.padim",
         ⟨[("PadimLightning", fun _ => [("a", 1), ("b", 2)])]⟩)]⟩
      [] ⟨"padim", none, none⟩) =
      resolutionOutcome (get_model
        ⟨[("anomalib.models.padim",
           ⟨[("PadimLightning", fun _ => [("a", 1), ("b", 2)])]⟩)]⟩
        [] ⟨"padim", none, some "elsewhere"⟩) ∧
    isOkResult (get_model (conventionEnv (fun _ _ => [("w", 0)])) []
      ⟨"padim", none, none⟩) = true :=
  C10_project_path_not_read
    ⟨[("anomalib.models.padim",
       ⟨[("PadimLightning", fun _ => [("a", 1), ("b", 2)])]⟩)]⟩
    [] "padim" none (some "elsewhere") (fun _ _ => [("w", 0)]) (by decide)

end AnomalibModels
